import Mathlib

/-!
Verification of the Arodos-website contact-form scripts.

The repository has two source files:
* `script.js` — the Notification Sender (`sendEmail`), the HTML template
  (`formSubmitTemplate`) and the contact-form submit handler;
* an unnamed script — the mobile-menu toggle registered on DOMContentLoaded.

The development below is a shallow embedding of that code.  Strings are Lean
`String`s, JSON values parsed from a response body are the inductive `JSValue`
(JSON numbers are modelled as `Int`; only the truthiness of `0` matters here),
and the single `fetch` call is modelled by quantifying over its possible
outcome (`FetchOutcome`).  `sendEmail` is a total Lean function from the
props and the fetch outcome to a trace recording the HTTP requests issued,
the `console.log` lines, and the returned value (`none` models `null`,
`some ⟨v⟩` models `{ data: v }`); totality of the Lean function reflects that
the JavaScript function catches every failure and never throws.
-/

/-- A JavaScript value as produced by `res.json()`.  JSON numbers are
modelled as `Int` (floating point is out of scope; only zero/non-zero
matters for truthiness). -/
inductive JSValue where
  | null
  | bool (b : Bool)
  | num (n : Int)
  | str (s : String)
  | arr (elems : List JSValue)
  | obj (fields : List (String × JSValue))

/-- JavaScript truthiness of a `JSValue`: `null`, `false`, `0` and `""` are
falsy; every other value (including empty arrays and objects) is truthy. -/
def JSValue.truthy : JSValue → Bool
  | .null => false
  | .bool b => b
  | .num n => n != 0
  | .str s => s != ""
  | .arr _ => true
  | .obj _ => true

/-- A `{name, email}` pair, as used for the `from` field and the recipients. -/
structure Contact where
  name : String
  email : String
deriving DecidableEq

/-- The argument object of `sendEmail`: `{ sendTo, subject, htmlpart }`. -/
structure EmailProps where
  sendTo : List Contact
  subject : String
  htmlpart : String
deriving DecidableEq

/-- The JSON body built by `sendEmail`:
`{ from: {name, email}, to: [...], subject, htmlpart }`. -/
structure RequestBody where
  «from» : Contact
  «to» : List Contact
  subject : String
  htmlpart : String
deriving DecidableEq

/-- One outbound HTTP request as issued by `fetch`. -/
structure HttpRequest where
  url : String
  method : String
  contentType : String
  body : RequestBody
deriving DecidableEq

/-- The non-null return value of `sendEmail`: the object `{ data }` wrapping
the parsed response body. -/
structure SendResult where
  data : JSValue

/-- The environment's response to the single `fetch` call:
* `reject` — network/transport failure, the `fetch` promise rejects;
* `response status parse` — a response arrived with the given HTTP status;
  `parse` is `some v` when `res.json()` resolves to the value `v` and `none`
  when the body fails to parse (the `res.json()` promise rejects). -/
inductive FetchOutcome where
  | reject
  | response (status : Nat) (parse : Option JSValue)

/-- Execution trace of one `sendEmail` call: the HTTP requests issued, the
`console.log` lines, and the value returned (`none` for `null`). -/
structure SendEmailTrace where
  requests : List HttpRequest
  logs : List String
  result : Option SendResult

/-- The `res.ok` flag of the Fetch API: status in the range 200–299. -/
def statusOk (status : Nat) : Bool :=
  decide (200 ≤ status) && decide (status < 300)

/-- The `body` object built at the top of `sendEmail`: a hardcoded `from`
contact, the caller's recipients, subject and HTML part. -/
def sendEmailBody (props : EmailProps) : RequestBody :=
  { «from» := { name := "Simmer It", email := "noreply@arodos.com" }
    «to» := props.sendTo
    subject := props.subject
    htmlpart := props.htmlpart }

/-- The fixed external endpoint `sendEmail` posts to. -/
def sendEmailUrl : String := "https://send-email-api-v2.backendservices.in"

/-- The single request `sendEmail` issues: a POST to the fixed URL with
header `Content-Type: application/json` and the serialized body. -/
def mkRequest (props : EmailProps) : HttpRequest :=
  { url := sendEmailUrl
    method := "POST"
    contentType := "application/json"
    body := sendEmailBody props }

/-- Shallow embedding of `sendEmail(props)` from `script.js`, as a function
of the outcome of its one `fetch` call.  It mirrors the source line by line:
on a rejected fetch the `catch` logs `"Could not send email"` and returns
`null`; on `!res.ok` it logs the status and returns `null`; on a body that
fails to parse the `catch` again logs and returns `null`; otherwise it
returns `{ data }`.  The function is total: no outcome throws. -/
def sendEmail (props : EmailProps) (o : FetchOutcome) : SendEmailTrace :=
  let req := mkRequest props
  match o with
  | .reject => { requests := [req], logs := ["Could not send email"], result := none }
  | .response status parse =>
    if !(statusOk status) then
      { requests := [req]
        logs := ["HTTP error! status: " ++ toString status]
        result := none }
    else
      match parse with
      | some v => { requests := [req], logs := [], result := some ⟨v⟩ }
      | none => { requests := [req], logs := ["Could not send email"], result := none }
def tmplChunk1 : String :=
  "
    <div style=\"
            font-family: \x27Segoe UI\x27, Tahoma, Geneva, Verdana, sans-serif;
            line-height: 1.6;
            max-width: 1080px;
            margin: 0 auto;
            background-color: #ffffff;
            border-radius: 20px;
            box-shadow: 0 15px 35px rgba(0, 0, 0, 0.12);
            overflow: hidden;
            border: 2px solid #f0f0f0;
        \">
	<!-- Header -->
	<header style=\"
            background: linear-gradient(135deg, #FF0000 0%, #bf0000 100%);
            padding: 40px 30px;
            text-align: center;
            position: relative;
            \">
		<div style=\"
                background: rgba(255, 255, 255, 0.1);
                border-radius: 50%;
                width: 80px;
                height: 80px;
                margin: 0 auto 20px auto;
                display: flex;
                align-items: center;
                justify-content: center;
                font-size: 32px;
            \">
			📧
		</div>
		<h1 style=\"
                color: #ffffff;
                font-size: 32px;
                font-weight: 600;
                margin: 0 0 10px 0;
                letter-spacing: -0.5px;
            \">
			New Contact Message
		</h1>
		<p style=\"
                color: rgba(255, 255, 255, 0.9);
                font-size: 18px;
                margin: 0;
                font-weight: 300;
            \">
			You have received a new message from your website
		</p>
	</header>

	<!-- Main Content -->
	<div style=\"padding: 45px 35px;\">
		<!-- Message Details Card -->
		<div style=\"
                background: linear-gradient(135deg, #f8f9ff 0%, #f0f2ff 100%);
                border: 2px solid #e6e8ff;
                border-radius: 18px;
                padding: 35px;
                margin-bottom: 30px;
            \">
			<h2 style=\"
                    color: #4c51bf;
                    font-size: 20px;
                    font-weight: 600;
                    margin: 0 0 25px 0;
                    border-bottom: 2px solid #e6e8ff;
                    padding-bottom: 10px;
                \">
				Contact Information
			</h2>

			<div style=\"margin-bottom: 20px;\">
				<label style=\"
                        display: block;
                        font-size: 14px;
                        font-weight: 600;
                        color: #6b7280;
                        margin-bottom: 8px;
                        text-transform: uppercase;
                        letter-spacing: 0.5px;
                    \">
                        Full Name
                    </label>
				<p style=\"
                        font-size: 18px;
                        color: #1f2937;
                        margin: 0;
                        padding: 12px 16px;
                        background-color: #ffffff;
                        border-radius: 10px;
                        border: 1px solid #d1d5db;
                        font-weight: 500;
                    \">
					"

def tmplChunk2 : String :=
  "
				</p>
			</div>

			<div style=\"margin-bottom: 20px;\">
				<label style=\"
                        display: block;
                        font-size: 14px;
                        font-weight: 600;
                        color: #6b7280;
                        margin-bottom: 8px;
                        text-transform: uppercase;
                        letter-spacing: 0.5px;
                    \">
                        Email Address
                    </label>
				<p style=\"
                        font-size: 18px;
                        color: #1f2937;
                        margin: 0;
                        padding: 12px 16px;
                        background-color: #ffffff;
                        border-radius: 10px;
                        border: 1px solid #d1d5db;
                        font-weight: 500;
                    \">
					<a href=\"mailto:"

def tmplChunk3 : String :=
  "\" style=\"color: #667eea; text-decoration: none;\">"

def tmplChunk4 : String :=
  "</a>
				</p>
			</div>
		</div>

		<!-- Message Content -->
		<div style=\"
                background: linear-gradient(135deg, #ffeded 0%, #ffeded 100%);
                border: 2px solid #FF0000;
                border-radius: 18px;
                padding: 35px;
                margin-bottom: 30px;
            \">
			<h3 style=\"
                    color: #92400e;
                    font-size: 20px;
                    font-weight: 600;
                    margin: 0 0 20px 0;
                    display: flex;
                    align-items: center;
                    gap: 10px;
                \">
				💬 Message Content
			</h3>
			<div style=\"
                    background-color: #ffffff;
                    border-radius: 12px;
                    padding: 25px;
                    border: 1px solid #fed7aa;
                    min-height: 120px;
                \">
				<p style=\"
                        font-size: 16px;
                        color: #374151;
                        margin: 0;
                        line-height: 1.7;
                    \">
                    "

def tmplChunk5 : String :=
  "
				</p>
			</div>
		</div>
	</div>
</div>
    "

/-- Shallow embedding of `formSubmitTemplate(name, email, message)`: the
template literal is the concatenation of its five literal chunks with the
interpolated arguments (`email` is interpolated twice: in the `mailto:` href
and as the link text). -/
def formSubmitTemplate (name email message : String) : String :=
  tmplChunk1 ++ (name ++ (tmplChunk2 ++ (email ++ (tmplChunk3 ++
    (email ++ (tmplChunk4 ++ (message ++ tmplChunk5)))))))

/-- The raw values of the three form fields at submit time. -/
structure FormState where
  name : String
  email : String
  message : String
deriving DecidableEq

/-- The props the submit handler passes to `sendEmail`: one hardcoded
recipient (`you@example.com`) whose display name is the trimmed form name, a
fixed subject, and the rendered template over the trimmed field values. -/
def contactFormProps (f : FormState) : EmailProps :=
  { sendTo := [{ name := f.name.trim, email := "you@example.com" }]
    subject := "New Message from Website Contact Form"
    htmlpart := formSubmitTemplate f.name.trim f.email.trim f.message.trim }

/-- The success alert text shown by the submit handler. -/
def successAlert : String := "✅ Message sent successfully!"

/-- The failure alert text shown by the submit handler. -/
def failureAlert : String := "❌ Failed to send message. Please try again."

/-- The empty form that `form.reset()` restores. -/
def emptyForm : FormState := { name := "", email := "", message := "" }

/-- Observable outcome of one submit-handler invocation: the requests issued
by the nested `sendEmail` call, its log lines, the alert shown, and the form
field values after the handler returns. -/
structure SubmitResult where
  requests : List HttpRequest
  logs : List String
  alert : String
  formAfter : FormState

/-- Shallow embedding of the form submit handler: trims the three fields,
renders the template, calls `sendEmail`, and branches on `res && res.data`
(a non-null result whose `data` field is truthy): success alert and
`form.reset()` on the truthy branch, failure alert and untouched fields
otherwise. -/
def handleSubmit (f : FormState) (o : FetchOutcome) : SubmitResult :=
  let t := sendEmail (contactFormProps f) o
  match t.result with
  | some r =>
    if r.data.truthy then
      { requests := t.requests, logs := t.logs, alert := successAlert, formAfter := emptyForm }
    else
      { requests := t.requests, logs := t.logs, alert := failureAlert, formAfter := f }
  | none =>
    { requests := t.requests, logs := t.logs, alert := failureAlert, formAfter := f }

/-- Hidden/shown state of the three menu elements: the menu panel, the
hamburger icon and the close icon (`true` = the `hidden` class is present). -/
structure MenuState where
  menuHidden : Bool
  hamburgerHidden : Bool
  closeHidden : Bool
deriving DecidableEq

/-- Shallow embedding of the menu click handler: `classList.toggle('hidden')`
on each of the three elements. -/
def menuClick (s : MenuState) : MenuState :=
  { menuHidden := !s.menuHidden
    hamburgerHidden := !s.hamburgerHidden
    closeHidden := !s.closeHidden }

/-- Both icons rendered at once: neither icon carries the `hidden` class. -/
def bothIconsVisible (s : MenuState) : Prop :=
  s.hamburgerHidden = false ∧ s.closeHidden = false

instance (s : MenuState) : Decidable (bothIconsVisible s) := by
  unfold bothIconsVisible; infer_instance

/-- A DOM element, identified by its id (the embedding only needs presence). -/
structure Elem where
  id : String
deriving DecidableEq

/-- Accessing `.addEventListener` on the result of `getElementById`: a
`TypeError` is raised when the element is `null`. -/
def addClickListener : Option Elem → Except String Bool
  | none => Except.error "TypeError: cannot read properties of null"
  | some _ => Except.ok true

/-- Shallow embedding of the menu script's DOMContentLoaded handler: the four
elements are looked up and the click handler is registered only when all four
are present.  Returns whether the click handler was registered, or an error
had one been raised. -/
def setupMobileMenu (btn menu ham close : Option Elem) : Except String Bool :=
  if btn.isSome && menu.isSome && ham.isSome && close.isSome then
    match addClickListener btn with
    | Except.ok _ => Except.ok true
    | Except.error e => Except.error e
  else
    Except.ok false

/-- Effect of a click on the toggle button on the page: the handler body runs
only when it was registered; otherwise the click changes nothing. -/
def menuClickEvent (registered : Bool) (s : MenuState) : MenuState :=
  if registered then menuClick s else s

/-- `needle` occurs verbatim inside `hay`. -/
def strContains (hay needle : String) : Prop :=
  ∃ s t : String, hay = s ++ (needle ++ t)

/-! ## Helper lemmas -/

/-- Every branch of `sendEmail` issues exactly the one request `mkRequest`. -/
theorem sendEmail_requests (props : EmailProps) (o : FetchOutcome) :
    (sendEmail props o).requests = [mkRequest props] := by
  cases o with
  | reject => rfl
  | response status parse =>
    unfold sendEmail
    dsimp only
    split
    · rfl
    · cases parse <;> rfl

/-- The submit handler reports exactly the requests of its `sendEmail` call. -/
theorem handleSubmit_requests (f : FormState) (o : FetchOutcome) :
    (handleSubmit f o).requests = (sendEmail (contactFormProps f) o).requests := by
  unfold handleSubmit
  dsimp only
  split
  · split <;> rfl
  · rfl

/-- The interpolated `name` occurs verbatim in the rendered template. -/
theorem template_contains_name (n e m : String) :
    strContains (formSubmitTemplate n e m) n :=
  ⟨tmplChunk1,
   tmplChunk2 ++ (e ++ (tmplChunk3 ++ (e ++ (tmplChunk4 ++ (m ++ tmplChunk5))))),
   rfl⟩

/-- The interpolated `email` occurs verbatim in the rendered template. -/
theorem template_contains_email (n e m : String) :
    strContains (formSubmitTemplate n e m) e :=
  ⟨tmplChunk1 ++ (n ++ tmplChunk2),
   tmplChunk3 ++ (e ++ (tmplChunk4 ++ (m ++ tmplChunk5))),
   by simp only [formSubmitTemplate, String.append_assoc]⟩

/-- The interpolated `message` occurs verbatim in the rendered template. -/
theorem template_contains_message (n e m : String) :
    strContains (formSubmitTemplate n e m) m :=
  ⟨tmplChunk1 ++ (n ++ (tmplChunk2 ++ (e ++ (tmplChunk3 ++ (e ++ tmplChunk4))))),
   tmplChunk5,
   by simp only [formSubmitTemplate, String.append_assoc]⟩

/-! ## Claims -/

/-- C1: for a submission whose three raw fields are non-empty, the one
request the handler passes to the Notification Sender has exactly one
recipient, whose email is the hardcoded destination address independent of
the email typed into the form, the fixed subject string, and an HTML body
containing the captured (trimmed) name, email and message verbatim. -/
theorem c1_request_shape (f : FormState) (o : FetchOutcome)
    (hn : f.name ≠ "") (he : f.email ≠ "") (hm : f.message ≠ "") :
    ∃ req : HttpRequest,
      (handleSubmit f o).requests = [req] ∧
      req.body.«to» = [{ name := f.name.trim, email := "you@example.com" }] ∧
      req.body.subject = "New Message from Website Contact Form" ∧
      strContains req.body.htmlpart f.name.trim ∧
      strContains req.body.htmlpart f.email.trim ∧
      strContains req.body.htmlpart f.message.trim := by
  refine ⟨mkRequest (contactFormProps f), ?_, rfl, rfl, ?_, ?_, ?_⟩
  · rw [handleSubmit_requests, sendEmail_requests]
  · exact template_contains_name _ _ _
  · exact template_contains_email _ _ _
  · exact template_contains_message _ _ _

/-- Witness for C1 at the concrete submission `("A", "b@x.com", "hi")` and a
rejected fetch. -/
theorem c1_request_shape_witness :
    ({ name := "A", email := "b@x.com", message := "hi" } : FormState).name ≠ "" ∧
    ({ name := "A", email := "b@x.com", message := "hi" } : FormState).email ≠ "" ∧
    ({ name := "A", email := "b@x.com", message := "hi" } : FormState).message ≠ "" ∧
    (∃ req : HttpRequest,
      (handleSubmit { name := "A", email := "b@x.com", message := "hi" }
          FetchOutcome.reject).requests = [req] ∧
      req.body.«to» =
        [{ name := ({ name := "A", email := "b@x.com", message := "hi" } : FormState).name.trim,
           email := "you@example.com" }] ∧
      req.body.subject = "New Message from Website Contact Form" ∧
      strContains req.body.htmlpart
        ({ name := "A", email := "b@x.com", message := "hi" } : FormState).name.trim ∧
      strContains req.body.htmlpart
        ({ name := "A", email := "b@x.com", message := "hi" } : FormState).email.trim ∧
      strContains req.body.htmlpart
        ({ name := "A", email := "b@x.com", message := "hi" } : FormState).message.trim) :=
  ⟨by decide, by decide, by decide,
   c1_request_shape { name := "A", email := "b@x.com", message := "hi" }
     FetchOutcome.reject (by decide) (by decide) (by decide)⟩

/-- C2 as stated is false on the code: a 200 response whose body parses to
the JSON value `false` is a success with a parsable body, yet the handler
shows the failure alert and leaves the fields untouched, because it tests
`res && res.data` and `res.data` is falsy. -/
theorem c2_counterexample :
    statusOk 200 = true ∧
    (handleSubmit { name := "A", email := "b@x.com", message := "hi" }
        (FetchOutcome.response 200 (some (JSValue.bool false)))).alert = failureAlert ∧
    (handleSubmit { name := "A", email := "b@x.com", message := "hi" }
        (FetchOutcome.response 200 (some (JSValue.bool false)))).alert ≠ successAlert ∧
    (handleSubmit { name := "A", email := "b@x.com", message := "hi" }
        (FetchOutcome.response 200 (some (JSValue.bool false)))).formAfter ≠ emptyForm :=
  ⟨by decide, rfl, by decide, by decide⟩

/-- C2 (amended): if the fetch succeeds (2xx) with a parsable body whose
parsed value is truthy — the handler tests `res && res.data`, not merely a
non-null result — the handler shows the success alert and resets all three
fields to empty. -/
theorem c2_success_resets (f : FormState) (status : Nat) (v : JSValue)
    (hok : statusOk status = true) (hv : v.truthy = true) :
    (handleSubmit f (FetchOutcome.response status (some v))).alert = successAlert ∧
    (handleSubmit f (FetchOutcome.response status (some v))).formAfter = emptyForm := by
  unfold handleSubmit sendEmail
  simp [hok, hv]

/-- Witness for the amended C2: status 200, body parsing to the non-empty
string `"ok"`. -/
theorem c2_success_resets_witness :
    statusOk 200 = true ∧ (JSValue.str "ok").truthy = true ∧
    ((handleSubmit { name := "A", email := "b@x.com", message := "hi" }
        (FetchOutcome.response 200 (some (JSValue.str "ok")))).alert = successAlert ∧
     (handleSubmit { name := "A", email := "b@x.com", message := "hi" }
        (FetchOutcome.response 200 (some (JSValue.str "ok")))).formAfter = emptyForm) :=
  ⟨by decide, by decide,
   c2_success_resets { name := "A", email := "b@x.com", message := "hi" }
     200 (JSValue.str "ok") (by decide) (by decide)⟩

/-- C3: on a non-2xx status the handler shows the failure alert and leaves
all three form fields exactly as they were. -/
theorem c3_failure_keeps_fields (f : FormState) (status : Nat) (parse : Option JSValue)
    (h : statusOk status = false) :
    (handleSubmit f (FetchOutcome.response status parse)).alert = failureAlert ∧
    (handleSubmit f (FetchOutcome.response status parse)).formAfter = f := by
  unfold handleSubmit sendEmail
  simp [h]

/-- Witness for C3: status 500. -/
theorem c3_failure_keeps_fields_witness :
    statusOk 500 = false ∧
    ((handleSubmit { name := "A", email := "b@x.com", message := "hi" }
        (FetchOutcome.response 500 (some JSValue.null))).alert = failureAlert ∧
     (handleSubmit { name := "A", email := "b@x.com", message := "hi" }
        (FetchOutcome.response 500 (some JSValue.null))).formAfter =
       { name := "A", email := "b@x.com", message := "hi" }) :=
  ⟨by decide,
   c3_failure_keeps_fields { name := "A", email := "b@x.com", message := "hi" }
     500 (some JSValue.null) (by decide)⟩

/-- C4: `sendEmail` has a binary outcome.  Each of the three error kinds —
non-2xx HTTP status, network/transport failure (the fetch rejects), and a
response body that fails to parse — is caught, logged to the console, and
yields the null result; on success it returns the parsed body wrapped in
`{ data }`.  The embedding is a total function, reflecting that the
JavaScript function never throws. -/
theorem c4_binary_outcome :
    (∀ (props : EmailProps) (status : Nat) (parse : Option JSValue),
      statusOk status = false →
      (sendEmail props (FetchOutcome.response status parse)).result = none ∧
      (sendEmail props (FetchOutcome.response status parse)).logs =
        ["HTTP error! status: " ++ toString status]) ∧
    (∀ props : EmailProps,
      (sendEmail props FetchOutcome.reject).result = none ∧
      (sendEmail props FetchOutcome.reject).logs = ["Could not send email"]) ∧
    (∀ (props : EmailProps) (status : Nat),
      statusOk status = true →
      (sendEmail props (FetchOutcome.response status none)).result = none ∧
      (sendEmail props (FetchOutcome.response status none)).logs = ["Could not send email"]) ∧
    (∀ (props : EmailProps) (status : Nat) (v : JSValue),
      statusOk status = true →
      (sendEmail props (FetchOutcome.response status (some v))).result = some ⟨v⟩ ∧
      (sendEmail props (FetchOutcome.response status (some v))).logs = []) := by
  refine ⟨?_, ?_, ?_, ?_⟩
  · intro props status parse h
    unfold sendEmail
    simp [h]
  · intro props
    exact ⟨rfl, rfl⟩
  · intro props status h
    unfold sendEmail
    simp [h]
  · intro props status v h
    unfold sendEmail
    simp [h]

/-- Witness for C4: all four cases at concrete statuses and bodies. -/
theorem c4_binary_outcome_witness :
    statusOk 404 = false ∧ statusOk 200 = true ∧
    ((sendEmail { sendTo := [], subject := "s", htmlpart := "h" }
        (FetchOutcome.response 404 none)).result = none ∧
     (sendEmail { sendTo := [], subject := "s", htmlpart := "h" }
        (FetchOutcome.response 404 none)).logs = ["HTTP error! status: " ++ toString 404]) ∧
    ((sendEmail { sendTo := [], subject := "s", htmlpart := "h" }
        FetchOutcome.reject).result = none ∧
     (sendEmail { sendTo := [], subject := "s", htmlpart := "h" }
        FetchOutcome.reject).logs = ["Could not send email"]) ∧
    ((sendEmail { sendTo := [], subject := "s", htmlpart := "h" }
        (FetchOutcome.response 200 none)).result = none ∧
     (sendEmail { sendTo := [], subject := "s", htmlpart := "h" }
        (FetchOutcome.response 200 none)).logs = ["Could not send email"]) ∧
    ((sendEmail { sendTo := [], subject := "s", htmlpart := "h" }
        (FetchOutcome.response 200 (some JSValue.null))).result = some ⟨JSValue.null⟩ ∧
     (sendEmail { sendTo := [], subject := "s", htmlpart := "h" }
        (FetchOutcome.response 200 (some JSValue.null))).logs = []) :=
  ⟨by decide, by decide,
   c4_binary_outcome.1 { sendTo := [], subject := "s", htmlpart := "h" } 404 none (by decide),
   c4_binary_outcome.2.1 { sendTo := [], subject := "s", htmlpart := "h" },
   c4_binary_outcome.2.2.1 { sendTo := [], subject := "s", htmlpart := "h" } 200 (by decide),
   c4_binary_outcome.2.2.2 { sendTo := [], subject := "s", htmlpart := "h" } 200
     JSValue.null (by decide)⟩

/-- C5: for every call and every fetch outcome, `sendEmail` issues exactly
one POST request, to the fixed URL, with header
`Content-Type: application/json`, whose body has exactly the shape
`{from: {name, email}, to: [...], subject, htmlpart}`; there are no
retries. -/
theorem c5_single_post (props : EmailProps) (o : FetchOutcome) :
    (sendEmail props o).requests =
      [{ url := "https://send-email-api-v2.backendservices.in"
         method := "POST"
         contentType := "application/json"
         body := { «from» := { name := "Simmer It", email := "noreply@arodos.com" }
                   «to» := props.sendTo
                   subject := props.subject
                   htmlpart := props.htmlpart } }] := by
  rw [sendEmail_requests]; rfl

/-- C6: at the concrete inputs name `"A"`, email `"b@x.com"`, message
`"hi"`, the rendered template contains all three literal substrings. -/
theorem c6_template_concrete :
    strContains (formSubmitTemplate "A" "b@x.com" "hi") "A" ∧
    strContains (formSubmitTemplate "A" "b@x.com" "hi") "b@x.com" ∧
    strContains (formSubmitTemplate "A" "b@x.com" "hi") "hi" :=
  ⟨template_contains_name "A" "b@x.com" "hi",
   template_contains_email "A" "b@x.com" "hi",
   template_contains_message "A" "b@x.com" "hi"⟩

/-- C7: from a state where exactly one of the two icons is visible, a click
flips the menu panel's visibility, swaps which icon is visible, and
preserves the invariant that the two icons are never visible together. -/
theorem c7_toggle_swaps (s : MenuState) (h : s.hamburgerHidden = !s.closeHidden) :
    (menuClick s).menuHidden = !s.menuHidden ∧
    (menuClick s).hamburgerHidden = s.closeHidden ∧
    (menuClick s).closeHidden = s.hamburgerHidden ∧
    (menuClick s).hamburgerHidden = !(menuClick s).closeHidden ∧
    ¬ bothIconsVisible s ∧ ¬ bothIconsVisible (menuClick s) := by
  obtain ⟨m, hh, ch⟩ := s
  simp only [menuClick, bothIconsVisible] at h ⊢
  cases ch <;> simp_all

/-- Witness for C7: menu closed, hamburger visible, close icon hidden. -/
theorem c7_toggle_swaps_witness :
    ({ menuHidden := true, hamburgerHidden := false, closeHidden := true } : MenuState).hamburgerHidden =
      !({ menuHidden := true, hamburgerHidden := false, closeHidden := true } : MenuState).closeHidden ∧
    ((menuClick { menuHidden := true, hamburgerHidden := false, closeHidden := true }).menuHidden =
      !({ menuHidden := true, hamburgerHidden := false, closeHidden := true } : MenuState).menuHidden ∧
     (menuClick { menuHidden := true, hamburgerHidden := false, closeHidden := true }).hamburgerHidden =
      ({ menuHidden := true, hamburgerHidden := false, closeHidden := true } : MenuState).closeHidden ∧
     (menuClick { menuHidden := true, hamburgerHidden := false, closeHidden := true }).closeHidden =
      ({ menuHidden := true, hamburgerHidden := false, closeHidden := true } : MenuState).hamburgerHidden ∧
     (menuClick { menuHidden := true, hamburgerHidden := false, closeHidden := true }).hamburgerHidden =
      !(menuClick { menuHidden := true, hamburgerHidden := false, closeHidden := true }).closeHidden ∧
     ¬ bothIconsVisible { menuHidden := true, hamburgerHidden := false, closeHidden := true } ∧
     ¬ bothIconsVisible (menuClick { menuHidden := true, hamburgerHidden := false, closeHidden := true })) :=
  ⟨by decide,
   c7_toggle_swaps { menuHidden := true, hamburgerHidden := false, closeHidden := true } (by decide)⟩

/-- C8 as stated is false on the code: the click operation is not
idempotent — applying it twice differs from applying it once (it is an
involution, so two clicks undo one). -/
theorem c8_counterexample :
    ¬ (menuClick (menuClick { menuHidden := true, hamburgerHidden := true, closeHidden := false }) =
       menuClick { menuHidden := true, hamburgerHidden := true, closeHidden := false }) := by
  decide

/-- C8 (amended): each click is a pure, deterministic flip of exactly the
three hidden flags — no other state is tracked — and the operation is an
involution (two clicks restore the original state), not idempotent. -/
theorem c8_involutive_pure (s : MenuState) :
    menuClick (menuClick s) = s ∧
    menuClick s = { menuHidden := !s.menuHidden
                    hamburgerHidden := !s.hamburgerHidden
                    closeHidden := !s.closeHidden } := by
  obtain ⟨m, hh, ch⟩ := s
  simp [menuClick]

/-- C9: for every call to `sendEmail`, the `from` field of the request body
is the constant contact `{name: "Simmer It", email: "noreply@arodos.com"}`,
independent of the arguments. -/
theorem c9_from_constant (props : EmailProps) :
    (sendEmailBody props).«from» = { name := "Simmer It", email := "noreply@arodos.com" } :=
  rfl

/-- C10: if any one of the four menu elements is absent at DOM-ready, the
guard skips registration: no error is raised, no click handler is
registered, and a click on the toggle button leaves the state unchanged. -/
theorem c10_missing_element_noop (btn menu ham close : Option Elem) (s : MenuState)
    (h : btn = none ∨ menu = none ∨ ham = none ∨ close = none) :
    setupMobileMenu btn menu ham close = Except.ok false ∧
    menuClickEvent false s = s := by
  refine ⟨?_, rfl⟩
  unfold setupMobileMenu
  rcases h with h | h | h | h <;> subst h <;> simp

/-- Witness for C10: the menu panel element is missing, the rest present. -/
theorem c10_missing_element_noop_witness :
    ((some { id := "mobile-menu-button" } : Option Elem) = none ∨
     (none : Option Elem) = none ∨
     (some { id := "hamburger-icon" } : Option Elem) = none ∨
     (some { id := "close-icon" } : Option Elem) = none) ∧
    (setupMobileMenu (some { id := "mobile-menu-button" }) none
        (some { id := "hamburger-icon" }) (some { id := "close-icon" }) = Except.ok false ∧
     menuClickEvent false { menuHidden := true, hamburgerHidden := false, closeHidden := true } =
       { menuHidden := true, hamburgerHidden := false, closeHidden := true }) :=
  ⟨Or.inr (Or.inl rfl),
   c10_missing_element_noop (some { id := "mobile-menu-button" }) none
     (some { id := "hamburger-icon" }) (some { id := "close-icon" })
     { menuHidden := true, hamburgerHidden := false, closeHidden := true }
     (Or.inr (Or.inl rfl))⟩
